import Mathlib

/-!
Verification of the relay core of `src/main.py`: a Discord ↔ Minecraft
bridge with a single WebSocket connection, a pending-request table keyed
by request id, an inbound event dispatcher, and two slash-command
request/response gateways (`/list` and `/tps`).

The embedding translates the Python source directly:
* Python dict `pending_requests` → association list `Table`;
* a waiter `(asyncio.Event(), storage_dict)` → `Waiter`, instrumented
  with counters for how many times the slot was assigned and how many
  times `event.set()` was called;
* a decoded JSON frame → `Frame` with optional fields (`data.get`/
  `data[k]` access; the latter can raise `KeyError`);
* the global `minecraft_client` → `Option Conn`;
* side effects (webhook posts, channel embeds, log lines) → `Effect`.
-/

/-- A decoded inbound JSON frame. Every field is optional, mirroring a
Python dict: `data.get(k)` yields the `Option`, while `data[k]` raises
`KeyError` when the field is absent (see `getField`). -/
structure Frame where
  type : Option String := none
  player : Option String := none
  uuid : Option String := none
  message : Option String := none
  request_id : Option String := none
  count : Option Nat := none
  max : Option Nat := none
  players : Option (List String) := none
  dimensions : Option (List (String × Int)) := none
  deriving DecidableEq, Repr

/-- Python exceptions that the embedded code can raise. -/
inductive PyErr where
  | keyError (field : String)
  deriving DecidableEq, Repr

/-- Dict subscript access `data[k]`: raises `KeyError` when absent. -/
def getField {α : Type} (v : Option α) (k : String) : Except PyErr α :=
  match v with
  | some x => Except.ok x
  | none => Except.error (PyErr.keyError k)

/-- One entry of `pending_requests`: the pair `(event, storage)` created
at registration time (main.py lines 258-260 / 300-302). `eventSet` is the
flag of the `asyncio.Event`; `slot` is `storage.get('response')`.
`slotWrites` counts executions of `storage['response'] = data` and
`setCalls` counts executions of `event.set()` — instrumentation used to
state the at-most-once invariants. -/
structure Waiter where
  eventSet : Bool
  slot : Option Frame
  slotWrites : Nat
  setCalls : Nat
  deriving DecidableEq, Repr

/-- A waiter as freshly created: unset event, empty storage dict. -/
def freshWaiter : Waiter :=
  { eventSet := false, slot := none, slotWrites := 0, setCalls := 0 }

/-- The `pending_requests` dict, as an association list keyed by
request id. -/
abbrev Table := List (String × Waiter)

/-- Dict membership / read: `pending_requests[rid]` when present. -/
def lookupReq (t : Table) (rid : String) : Option Waiter :=
  match t with
  | [] => none
  | (k, w) :: rest => if k = rid then some w else lookupReq rest rid

/-- Dict assignment `pending_requests[rid] = w`: replaces the entry when
the key is present, otherwise appends it. -/
def insertReq (t : Table) (rid : String) (w : Waiter) : Table :=
  match t with
  | [] => [(rid, w)]
  | (k, w0) :: rest =>
    if k = rid then (rid, w) :: rest else (k, w0) :: insertReq rest rid w

/-- Dict removal `pending_requests.pop(rid, None)`: discards the entry
for `rid` (and never raises). -/
def popReq (t : Table) (rid : String) : Table :=
  match t with
  | [] => []
  | (k, w) :: rest =>
    if k = rid then popReq rest rid else (k, w) :: popReq rest rid

/-- The registration step of both command handlers (main.py lines
258-260 and 300-302): build a fresh event/storage pair and assign it
into the dict, unconditionally overwriting any entry already there. -/
def registerReq (t : Table) (rid : String) : Table :=
  insertReq t rid freshWaiter

/-- Embed colors used for the Discord embeds. -/
inductive Color where
  | green
  | red
  | darkRed
  | blue
  | purple
  deriving DecidableEq, Repr

/-- Observable side effects of the dispatcher and read loop. -/
inductive Effect where
  /-- aiohttp POST of the chat payload to `WEBHOOK_URL` (lines 139-147). -/
  | webhookPost (username : String) (avatar : String) (content : String)
  /-- an embed sent to `bot_channel` (join / leave / death). -/
  | channelEmbed (authorText : String) (avatar : String) (color : Color)
  /-- the warning logged when `WEBHOOK_URL` is unset (line 130). -/
  | logWebhookUnset
  /-- the log line for malformed JSON (line 108). -/
  | logInvalidJson (raw : String)
  /-- the log line for an exception while processing a frame (line 110). -/
  | logProcessingError (e : PyErr)
  deriving DecidableEq, Repr

/-- Avatar URL built from a player uuid (lines 136, 156, 167, 178). -/
def avatarUrl (u : String) : String :=
  "https://api.mineatar.io/face/" ++ u

/-- The `chat`/`join`/`leave`/`death` branch chain of
`process_minecraft_event` (main.py lines 127-185). Returns the effects
it emitted plus a flag marking that the Python code executed `return`
inside the branch (only the chat-with-no-webhook path does). Raises
`KeyError` exactly where the Python subscripts a missing field. -/
def oneWayBranch (webhookConfigured : Bool) (data : Frame) :
    Except PyErr (List Effect × Bool) :=
  if data.type = some "chat" then
    if webhookConfigured = false then
      Except.ok ([Effect.logWebhookUnset], true)
    else do
      let player_name ← getField data.player "player"
      let player_uuid ← getField data.uuid "uuid"
      let message ← getField data.message "message"
      Except.ok ([Effect.webhookPost player_name (avatarUrl player_uuid) message], false)
  else if data.type = some "join" then do
    let player_name ← getField data.player "player"
    let player_uuid ← getField data.uuid "uuid"
    Except.ok ([Effect.channelEmbed (player_name ++ "님이 서버에 참여하였습니다.")
      (avatarUrl player_uuid) Color.green], false)
  else if data.type = some "leave" then do
    let player_name ← getField data.player "player"
    let player_uuid ← getField data.uuid "uuid"
    Except.ok ([Effect.channelEmbed (player_name ++ "님이 서버를 떠났습니다.")
      (avatarUrl player_uuid) Color.red], false)
  else if data.type = some "death" then do
    let death_message ← getField data.message "message"
    let player_uuid ← getField data.uuid "uuid"
    Except.ok ([Effect.channelEmbed death_message (avatarUrl player_uuid) Color.darkRed], false)
  else
    Except.ok ([], false)

/-- The `list_response` / `tps_response` block of
`process_minecraft_event` (main.py lines 187-194): read
`data.get("request_id")`; when an entry is registered under it, execute
`storage['response'] = data` and `event.set()` on that entry. The
in-place mutation of the shared `(event, storage)` objects is modelled
by re-assigning the updated waiter into the table. -/
def resolveStep (t : Table) (rid : Option String) (data : Frame) : Table :=
  match rid with
  | none => t
  | some r =>
    match lookupReq t r with
    | none => t
    | some w =>
      insertReq t r
        { eventSet := true, slot := some data,
          slotWrites := w.slotWrites + 1, setCalls := w.setCalls + 1 }

/-- Embedding of `process_minecraft_event` (main.py lines 120-197).
`botChannel` is the truthiness of the global `bot_channel`;
`webhookConfigured` that of `WEBHOOK_URL`. Returns the updated
`pending_requests` table and the effects emitted, or the uncaught
exception. Note that line 124 returns before ANY handling — including
the response-routing block — whenever `bot_channel` is unset. -/
def process_minecraft_event (botChannel webhookConfigured : Bool)
    (t : Table) (data : Frame) : Except PyErr (Table × List Effect) :=
  if botChannel = false then
    Except.ok (t, [])
  else
    match oneWayBranch webhookConfigured data with
    | Except.error e => Except.error e
    | Except.ok (effs, earlyReturn) =>
      if earlyReturn then
        Except.ok (t, effs)
      else if data.type = some "list_response" ∨ data.type = some "tps_response" then
        Except.ok (resolveStep t data.request_id data, effs)
      else
        Except.ok (t, effs)

/-- A raw WebSocket message: either text that fails `json.loads`, or a
decoded frame. -/
inductive RawMessage where
  | malformed (raw : String)
  | decoded (data : Frame)
  deriving DecidableEq, Repr

/-- One iteration of the read loop body (main.py lines 103-110): decode
failure is logged and dropped; any exception from
`process_minecraft_event` is caught and logged, leaving the table
unchanged. -/
def handleOne (botChannel webhookConfigured : Bool) (t : Table)
    (m : RawMessage) : Table × List Effect :=
  match m with
  | RawMessage.malformed raw => (t, [Effect.logInvalidJson raw])
  | RawMessage.decoded data =>
    match process_minecraft_event botChannel webhookConfigured t data with
    | Except.ok (t2, effs) => (t2, effs)
    | Except.error e => (t, [Effect.logProcessingError e])

/-- The `async for message in websocket` read loop (main.py lines
103-110), applied to the finite list of messages the connection
delivers. It consumes every message: no frame terminates the loop. -/
def readLoop (botChannel webhookConfigured : Bool) (t : Table)
    (msgs : List RawMessage) : Table × List Effect :=
  match msgs with
  | [] => (t, [])
  | m :: rest =>
    let r1 := handleOne botChannel webhookConfigured t m
    let r2 := readLoop botChannel webhookConfigured r1.1 rest
    (r2.1, r1.2 ++ r2.2)

theorem lookupReq_popReq_self (t : Table) (rid : String) :
    lookupReq (popReq t rid) rid = none := by
  induction t with
  | nil => rfl
  | cons p rest ih =>
    by_cases h : p.1 = rid
    · simpa [popReq, h] using ih
    · simp [popReq, lookupReq, h, ih]

theorem lookupReq_insertReq_self (t : Table) (rid : String) (w : Waiter) :
    lookupReq (insertReq t rid w) rid = some w := by
  induction t with
  | nil => simp [insertReq, lookupReq]
  | cons p rest ih =>
    by_cases h : p.1 = rid
    · simp [insertReq, lookupReq, h]
    · simp [insertReq, lookupReq, h, ih]

theorem lookupReq_insertReq_ne (t : Table) (rid rid2 : String) (w : Waiter)
    (h : rid2 ≠ rid) :
    lookupReq (insertReq t rid w) rid2 = lookupReq t rid2 := by
  have h2 : rid ≠ rid2 := Ne.symm h
  induction t with
  | nil => simp [insertReq, lookupReq, h2]
  | cons p rest ih =>
    by_cases hk : p.1 = rid
    · simp [insertReq, lookupReq, hk, h2]
    · by_cases hk2 : p.1 = rid2
      · simp [insertReq, lookupReq, hk, hk2, h]
      · simp [insertReq, lookupReq, hk, hk2, ih]

/-- Opaque handle for a WebSocket connection from the Minecraft mod. -/
abbrev Conn := Nat

/-- Lifecycle events observed by `websocket_handler` that touch the
global `minecraft_client` registry. -/
inductive RegEvent where
  | connect (c : Conn)
  | disconnect (c : Conn)
  deriving DecidableEq, Repr

/-- The registry updates of `websocket_handler`: on entry the handler
executes `minecraft_client = websocket` (line 93); in its `finally`
block it executes `minecraft_client = None` (line 114) — unconditionally,
with no check that the stored handle is still this handler's own
connection. -/
def regStep (_reg : Option Conn) (e : RegEvent) : Option Conn :=
  match e with
  | RegEvent.connect c => some c
  | RegEvent.disconnect _ => none

/-- A run of connection lifecycle events over the registry. -/
def regRun (init : Option Conn) (evs : List RegEvent) : Option Conn :=
  evs.foldl regStep init

/-- Outbound frames sent by the command handlers over the connection. -/
inductive ReqFrame where
  | getList (rid : String)
  | getTps (rid : String)
  deriving DecidableEq, Repr

/-- Outcome of `await minecraft_client.send(...)` inside the `try`. -/
inductive SendOutcome where
  | sent
  | raised
  deriving DecidableEq, Repr

/-- Outcome of `await asyncio.wait_for(event.wait(), timeout=5.0)`. -/
inductive WaitOutcome where
  | signaled
  | timedOut
  deriving DecidableEq, Repr

/-- The user-visible reply a command handler produces. -/
inductive Reply where
  /-- the early reply when `minecraft_client` is falsy. -/
  | notConnected
  /-- the rendered player-list embed of `/list`. -/
  | listResult (count : Nat) (maxPlayers : Nat) (players : List String)
  /-- the rendered per-dimension embed of `/tps`. -/
  | tpsResult (dims : List (String × Int))
  /-- the reply when the event fired but storage held no response. -/
  | unexpectedResponse
  /-- the reply on `asyncio.TimeoutError`. -/
  | timeoutMsg
  /-- the reply of the generic `except Exception` handler. -/
  | errorMsg
  deriving DecidableEq, Repr

/-- Embedding of `list_command` (main.py lines 244-287). The
environment's contribution is passed in: `send` says whether the
WebSocket send raised, `wait` whether the event fired before the 5 s
timeout, `stored` is `storage.get('response')` at wake-up (written by
the dispatcher), and `interfere` is an arbitrary transformation other
cooperative tasks apply to `pending_requests` between registration and
the `finally` block. Returns the reply, the final table (after the
`finally` pop), and the frames this call attempted to send. -/
def list_command (conn : Option Conn) (rid : String) (t : Table)
    (send : SendOutcome) (wait : WaitOutcome) (stored : Option Frame)
    (interfere : Table → Table) : Reply × Table × List ReqFrame :=
  match conn with
  | none => (Reply.notConnected, t, [])
  | some _ =>
    let t1 := registerReq t rid
    let reply :=
      match send with
      | SendOutcome.raised => Reply.errorMsg
      | SendOutcome.sent =>
        match wait with
        | WaitOutcome.timedOut => Reply.timeoutMsg
        | WaitOutcome.signaled =>
          match stored with
          | none => Reply.unexpectedResponse
          | some resp =>
            match resp.count, resp.max, resp.players with
            | some c, some m, some ps => Reply.listResult c m ps
            | _, _, _ => Reply.errorMsg
    (reply, popReq (interfere t1) rid, [ReqFrame.getList rid])

/-- Embedding of `tps_command` (main.py lines 290-322), with the same
environment parameters as `list_command`. Reading a missing
`dimensions` key raises and is caught by the generic handler. -/
def tps_command (conn : Option Conn) (rid : String) (t : Table)
    (send : SendOutcome) (wait : WaitOutcome) (stored : Option Frame)
    (interfere : Table → Table) : Reply × Table × List ReqFrame :=
  match conn with
  | none => (Reply.notConnected, t, [])
  | some _ =>
    let t1 := registerReq t rid
    let reply :=
      match send with
      | SendOutcome.raised => Reply.errorMsg
      | SendOutcome.sent =>
        match wait with
        | WaitOutcome.timedOut => Reply.timeoutMsg
        | WaitOutcome.signaled =>
          match stored with
          | none => Reply.unexpectedResponse
          | some resp =>
            match resp.dimensions with
            | some dims => Reply.tpsResult dims
            | none => Reply.errorMsg
    (reply, popReq (interfere t1) rid, [ReqFrame.getTps rid])

/-- A Discord message as seen by `on_message`. -/
structure DiscordMessage where
  authorIsSelf : Bool
  authorIsBot : Bool
  channelId : Nat
  authorName : String
  content : String
  deriving DecidableEq, Repr

/-- The payload `on_message` serializes for the Minecraft mod. -/
structure ChatPayload where
  type : String
  author : String
  message : String
  deriving DecidableEq, Repr

/-- Embedding of `on_message` (main.py lines 227-240): drop messages
from the bot itself or from other channels; then, only when
`minecraft_client` is set AND the author is not a bot account, send the
`discord_chat` payload. Returns the frames sent over the connection. -/
def on_message (chanId : Nat) (conn : Option Conn) (m : DiscordMessage) :
    List ChatPayload :=
  if m.authorIsSelf = true ∨ m.channelId ≠ chanId then
    []
  else if conn.isSome = true ∧ m.authorIsBot = false then
    [{ type := "discord_chat", author := m.authorName, message := m.content }]
  else
    []

/-- A waiter that has already received a response: used to exhibit
overwriting behaviour on duplicate registration. -/
def usedWaiter : Waiter :=
  { eventSet := true, slot := some {}, slotWrites := 1, setCalls := 1 }

/-- A concrete `list_response` frame correlated to request id `"r"`. -/
def listRespFrame : Frame :=
  { type := some "list_response", request_id := some "r" }

/-- A second, distinct `list_response` frame for the same request id. -/
def listRespFrame2 : Frame :=
  { type := some "list_response", request_id := some "r", count := some 2 }

/-- A `tps_response` frame whose request id is registered nowhere. -/
def ghostRespFrame : Frame :=
  { type := some "tps_response", request_id := some "ghost" }

/-- A decoded `chat` frame missing its required `player` field. -/
def chatNoPlayerFrame : Frame :=
  { type := some "chat", message := some "hi" }

/-- Claim C1: whenever `/list` or `/tps` proceeds past the connection
check (so a pending-request entry is registered), the invocation ends
with no entry for its request id in `pending_requests` — on success,
timeout, send failure, and under arbitrary interference from other
cooperative tasks — because the `finally` block pops the id
unconditionally. -/
theorem gateway_cleanup_removes_entry (c : Conn) (rid : String) (t : Table)
    (send : SendOutcome) (wait : WaitOutcome) (stored : Option Frame)
    (interfere : Table → Table) :
    lookupReq (list_command (some c) rid t send wait stored interfere).2.1 rid = none ∧
    lookupReq (tps_command (some c) rid t send wait stored interfere).2.1 rid = none :=
  ⟨lookupReq_popReq_self _ _, lookupReq_popReq_self _ _⟩

/-- Claim C6: with no active connection, both command handlers reply
"not connected" immediately: the pending-request table is untouched,
nothing is sent, and the result does not depend on the send outcome,
the wait outcome, or anything that could happen during a wait. -/
theorem no_connection_immediate_unavailable (rid : String) (t : Table)
    (send : SendOutcome) (wait : WaitOutcome) (stored : Option Frame)
    (interfere : Table → Table) :
    list_command none rid t send wait stored interfere = (Reply.notConnected, t, []) ∧
    tps_command none rid t send wait stored interfere = (Reply.notConnected, t, []) :=
  ⟨rfl, rfl⟩

/-- Counterexample to claim C4: connection 0 connects, connection 1
replaces it, then the displaced connection 0 disconnects — its cleanup
clears the registry entirely instead of leaving connection 1 registered. -/
theorem disconnect_clears_replacement_cx :
    regRun none [RegEvent.connect 0, RegEvent.connect 1, RegEvent.disconnect 0] = none ∧
    regRun none [RegEvent.connect 0, RegEvent.connect 1, RegEvent.disconnect 0] ≠ some 1 :=
  ⟨rfl, by decide⟩

/-- Claim C4 as amended: the disconnect cleanup of `websocket_handler`
(`minecraft_client = None` in the `finally` block) is unconditional — it
clears the registry no matter which connection is currently stored, so
a replacement connection is deregistered by the displaced handler. -/
theorem disconnect_cleanup_unconditional (init : Option Conn)
    (evs : List RegEvent) (c : Conn) :
    regRun init (evs ++ [RegEvent.disconnect c]) = none := by
  simp [regRun, List.foldl_append, regStep]

/-- Counterexample to claim C5: registering a request id that already
has an entry does not fail — it silently replaces the existing waiter
with a fresh one. -/
theorem register_duplicate_overwrites_cx :
    registerReq [("r", usedWaiter)] "r" = [("r", freshWaiter)] ∧
    usedWaiter ≠ freshWaiter :=
  ⟨rfl, by decide⟩

/-- Claim C5 as amended: registration is a plain dict assignment with no
duplicate check; it never fails, and after it the table maps the id to a
fresh waiter regardless of what was there before. -/
theorem register_overwrites_never_fails (t : Table) (rid : String) :
    lookupReq (registerReq t rid) rid = some freshWaiter :=
  lookupReq_insertReq_self t rid freshWaiter

/-- Claim C8: a message that fails JSON decoding is logged and dropped —
the table is unchanged, no notification or resolve occurs for it, and
the read loop goes on to process the remaining messages of the same
connection. -/
theorem malformed_frame_dropped (bc wh : Bool) (t : Table) (raw : String)
    (rest : List RawMessage) :
    readLoop bc wh t (RawMessage.malformed raw :: rest) =
      ((readLoop bc wh t rest).1,
        Effect.logInvalidJson raw :: (readLoop bc wh t rest).2) := by
  simp [readLoop, handleOne]

theorem oneWayBranch_response (wh : Bool) (data : Frame)
    (hty : data.type = some "list_response" ∨ data.type = some "tps_response") :
    oneWayBranch wh data = Except.ok ([], false) := by
  rcases hty with h | h <;> simp [oneWayBranch, h]

/-- Counterexample to claim C2: with the chat notification channel
unconfigured (`bot_channel` falsy), a `list_response` frame whose
request id IS registered is dropped by the early return at line 124 —
the entry's slot stays empty and its event stays unset, so the routing
does NOT happen in every state. -/
theorem response_dropped_when_channel_unset_cx :
    process_minecraft_event false true [("r", freshWaiter)] listRespFrame =
      Except.ok ([("r", freshWaiter)], []) ∧
    freshWaiter.slot = none ∧ freshWaiter.eventSet = false :=
  ⟨rfl, rfl, rfl⟩

/-- Claim C2 as amended: provided the chat notification channel is
configured (`bot_channel` truthy), every `list_response`/`tps_response`
frame whose request id has a registered entry is routed to that entry —
the payload is written into its slot, its event is set — and no outbound
chat notification is emitted; this holds whether or not the webhook is
configured. When the channel is unconfigured the dispatcher drops the
frame before routing. -/
theorem response_routed_when_channel_set (wh : Bool) (t : Table)
    (data : Frame) (r : String) (w : Waiter)
    (hty : data.type = some "list_response" ∨ data.type = some "tps_response")
    (hrid : data.request_id = some r)
    (hw : lookupReq t r = some w) :
    process_minecraft_event true wh t data =
      Except.ok (insertReq t r
        { eventSet := true, slot := some data,
          slotWrites := w.slotWrites + 1, setCalls := w.setCalls + 1 }, []) := by
  have ho := oneWayBranch_response wh data hty
  simp [process_minecraft_event, ho, if_pos hty, resolveStep, hrid, hw]

/-- Witness for `response_routed_when_channel_set` at concrete input:
one registered fresh entry, one matching `list_response` frame. -/
theorem response_routed_when_channel_set_witness :
    process_minecraft_event true true [("r", freshWaiter)] listRespFrame =
      Except.ok ([("r", { eventSet := true, slot := some listRespFrame,
                          slotWrites := 1, setCalls := 1 })], []) := by
  have h := response_routed_when_channel_set true [("r", freshWaiter)]
    listRespFrame "r" freshWaiter (Or.inl rfl) rfl rfl
  simpa [insertReq, freshWaiter] using h

/-- Counterexample to claim C3: two `list_response` frames with the same
registered request id, arriving before the entry is removed, make the
read loop execute `storage['response'] = data` twice — the slot-write
count reaches 2 and the second payload overwrites the first, so the slot
is NOT written at most once. -/
theorem duplicate_response_writes_slot_twice_cx :
    readLoop true true [("r", freshWaiter)]
      [RawMessage.decoded listRespFrame, RawMessage.decoded listRespFrame2] =
      ([("r", { eventSet := true, slot := some listRespFrame2,
                slotWrites := 2, setCalls := 2 })], []) :=
  rfl

/-- Claim C3 as amended: while an entry remains in the table, each
further response frame with its request id performs another slot write
and another `event.set()` call: after two resolves the write counter has
grown by two and the slot holds the SECOND payload (last write wins).
Only the event flag is idempotent — it is simply `true` after any number
of resolves, so the signal fires at most once per entry. -/
theorem duplicate_resolve_overwrites (t : Table) (r : String) (w : Waiter)
    (f1 f2 : Frame) (hw : lookupReq t r = some w) :
    lookupReq (resolveStep (resolveStep t (some r) f1) (some r) f2) r =
      some { eventSet := true, slot := some f2,
             slotWrites := w.slotWrites + 2, setCalls := w.setCalls + 2 } := by
  simp [resolveStep, hw, lookupReq_insertReq_self]

/-- Witness for `duplicate_resolve_overwrites` at a concrete input. -/
theorem duplicate_resolve_overwrites_witness :
    lookupReq (resolveStep (resolveStep [("r", freshWaiter)] (some "r")
      listRespFrame) (some "r") listRespFrame2) "r" =
      some { eventSet := true, slot := some listRespFrame2,
             slotWrites := 2, setCalls := 2 } := by
  have h := duplicate_resolve_overwrites [("r", freshWaiter)] "r" freshWaiter
    listRespFrame listRespFrame2 rfl
  simpa [freshWaiter] using h

/-- Claim C7: a resolve for a request id with no registered entry —
unknown, already removed, or a response frame with no request id at
all — raises nothing, changes nothing: the dispatcher returns the table
exactly as it was (so every other entry's slot and event are untouched)
and emits no effect. -/
theorem resolve_unknown_noop (bc wh : Bool) (t : Table) (data : Frame)
    (hty : data.type = some "list_response" ∨ data.type = some "tps_response")
    (habs : ∀ r, data.request_id = some r → lookupReq t r = none) :
    resolveStep t data.request_id data = t ∧
    process_minecraft_event bc wh t data = Except.ok (t, []) := by
  have hres : resolveStep t data.request_id data = t := by
    cases hrid : data.request_id with
    | none => simp [resolveStep]
    | some r => simp [resolveStep, habs r hrid]
  refine ⟨hres, ?_⟩
  cases bc with
  | false => simp [process_minecraft_event]
  | true =>
    have ho := oneWayBranch_response wh data hty
    simp [process_minecraft_event, ho, if_pos hty, hres]

/-- Witness for `resolve_unknown_noop`: an unsolicited `tps_response`
for unregistered id `"ghost"` leaves the sole (other) entry intact. -/
theorem resolve_unknown_noop_witness :
    resolveStep [("other", usedWaiter)] ghostRespFrame.request_id ghostRespFrame =
      [("other", usedWaiter)] ∧
    process_minecraft_event true true [("other", usedWaiter)] ghostRespFrame =
      Except.ok ([("other", usedWaiter)], []) := by
  have h := resolve_unknown_noop true true [("other", usedWaiter)] ghostRespFrame
    (Or.inr rfl) (by intro r hr; cases hr; decide)
  exact h

/-- Claim C10: when processing a successfully decoded frame raises (for
example a key-lookup error on a missing required field), the read loop
catches it, logs it, leaves the table unchanged, and continues with the
remaining frames of the same connection — the exception does not
propagate. -/
theorem processing_error_caught (bc wh : Bool) (t : Table) (data : Frame)
    (rest : List RawMessage) (e : PyErr)
    (herr : process_minecraft_event bc wh t data = Except.error e) :
    readLoop bc wh t (RawMessage.decoded data :: rest) =
      ((readLoop bc wh t rest).1,
        Effect.logProcessingError e :: (readLoop bc wh t rest).2) := by
  simp [readLoop, handleOne, herr]

/-- Witness for `processing_error_caught`: a chat frame with no `player`
field raises `KeyError('player')`, which is caught and logged. -/
theorem processing_error_caught_witness :
    process_minecraft_event true true [] chatNoPlayerFrame =
      Except.error (PyErr.keyError "player") ∧
    readLoop true true [] [RawMessage.decoded chatNoPlayerFrame] =
      ([], [Effect.logProcessingError (PyErr.keyError "player")]) := by
  refine ⟨rfl, ?_⟩
  rw [processing_error_caught true true [] chatNoPlayerFrame []
    (PyErr.keyError "player") rfl]
  rfl

/-- A Discord message from another bot account, on the relay channel,
while a connection is active. -/
def botMsg : DiscordMessage :=
  { authorIsSelf := false, authorIsBot := true, channelId := 5,
    authorName := "OtherBot", content := "hello" }

/-- A Discord message from a human user on the relay channel. -/
def humanMsg : DiscordMessage :=
  { authorIsSelf := false, authorIsBot := false, channelId := 5,
    authorName := "Alice", content := "hi" }

/-- Counterexample to claim C9: a message authored by another bot
account, on the relay channel, with an active connection, is NOT
forwarded — `on_message` additionally requires `not message.author.bot`,
so not every received chat message is sent when a connection exists. -/
theorem bot_author_dropped_cx :
    (some 0 : Option Conn).isSome = true ∧ botMsg.channelId = 5 ∧
    on_message 5 (some 0) botMsg = [] :=
  ⟨rfl, rfl, rfl⟩

/-- Claim C9 as amended: for a message on the relay channel not authored
by the relay itself, `on_message` serializes and sends the
`discord_chat` payload (author display name plus text) exactly when an
active connection exists AND the author is not a bot account; with no
active connection the message is silently dropped — nothing is queued
and no error is raised. -/
theorem forward_chat_amended (chanId : Nat) (conn : Option Conn)
    (m : DiscordMessage) (c : Conn) :
    (m.authorIsSelf = false → m.channelId = chanId → m.authorIsBot = false →
      conn = some c →
      on_message chanId conn m =
        [{ type := "discord_chat", author := m.authorName,
           message := m.content }]) ∧
    (conn = none → on_message chanId conn m = []) := by
  constructor
  · intro h1 h2 h3 h4
    subst h4
    simp [on_message, h1, h2, h3]
  · intro h
    subst h
    unfold on_message
    split
    · rfl
    · simp

/-- Witness for `forward_chat_amended`: a human-authored on-channel
message is forwarded when connection 0 is active and dropped when no
connection is active. -/
theorem forward_chat_amended_witness :
    on_message 5 (some 0) humanMsg =
      [{ type := "discord_chat", author := "Alice", message := "hi" }] ∧
    on_message 5 none humanMsg = [] := by
  constructor
  · exact (forward_chat_amended 5 (some 0) humanMsg 0).1 rfl rfl rfl rfl
  · exact (forward_chat_amended 5 none humanMsg 0).2 rfl
